import Mathlib

/-!
Shallow embedding of the pixel-multiplexing engine of
src/cores/blinkcore/pixel.cpp (Move38 blinks platform).

The embedding models the memory state that the foreground entry points and
the timer-overflow interrupt handler share: the two raw pixel buffers of the
double-buffered frame store, the swap-request flag, the interrupt-owned
phase/pixel cursor, and the three PWM output-compare registers that the
interrupt handler loads from the displayed set.  Pin-direction and
timer-control register writes (SBI/CBI on DDR/PORT/TCCR) have no effect on
this shared memory state and are not modelled; comments in the step function
note where they occur in the source.
-/

set_option maxHeartbeats 1000000

namespace Pixel

/-- PIXEL_COUNT: the number of pixels, 6 (from pixel.h, used throughout
pixel.cpp as the size of rawpixels[] and the wraparound bound). -/
abbrev PIXEL_COUNT : Nat := 6

/-- rawpixel_t: the three 8-bit raw PWM compare values of one pixel
(pixel.cpp lines 57-61).  255 means the channel is off. -/
structure rawpixel_t where
  rawValueR : Nat
  rawValueG : Nat
  rawValueB : Nat
deriving DecidableEq

/-- The "all off" raw pixel value (255,255,255) that pixel_init fills both
buffers with. -/
def rawPixelOff : rawpixel_t := ⟨255, 255, 255⟩

/-- pixelColor_t: a gamma-domain color with 5-bit (0..31) r,g,b components,
as consumed by pixel_bufferedSetPixel (declared in pixel.h; field names from
the uses newColor.r / newColor.g / newColor.b in pixel.cpp lines 748-750). -/
structure pixelColor_t where
  r : Nat
  g : Nat
  b : Nat
deriving DecidableEq

/-- The shared memory state of the pixel engine: the two buffers of the
frame store (held here directly as the lists the displayed / buffered
pointers refer to, so the ISR's pointer swap is an exchange of the two
fields), the swap-request flag, the interrupt cursor, and the three OCR
registers the ISR writes.  swapChecks is a ghost counter incremented each
time the ISR reaches the wraparound point and examines the pending flag. -/
structure PixelState where
  displayedRawPixelSet : List rawpixel_t
  bufferedRawPixelSet : List rawpixel_t
  pendingRawPixelBufferSwap : Bool
  currentPixelIndex : Nat
  phase : Nat
  OCR0A : Nat
  OCR0B : Nat
  OCR2B : Nat
  swapChecks : Nat
deriving DecidableEq

/-- pixel_isr (pixel.cpp lines 407-575): one invocation of the per-overflow
interrupt state machine.  currentPixel is read from the displayed set at the
current pixel index (line 413).  Phase 0 does only pin / timer-control
register writes (deactivateAnodes, TCCR2A, DDR bits) plus phase++; phase 1
activates the anode and loads OCR2B from the current pixel's blue value;
phase 2 schedules blue off and red on; phase 3 schedules red off and green
on (plus blue-pin float); phase 4 schedules green off, advances the pixel
index, and at wraparound examines the pending flag and swaps the two buffer
roles.  A phase value outside 0..4 matches no case of the switch and leaves
the state unchanged. -/
def pixel_isr (s : PixelState) : PixelState :=
  let currentPixel := s.displayedRawPixelSet.getD s.currentPixelIndex rawPixelOff
  match s.phase with
  | 0 => { s with phase := 1 }
  | 1 => { s with OCR2B := currentPixel.rawValueB, phase := 2 }
  | 2 => { s with OCR2B := 255, OCR0A := currentPixel.rawValueR, phase := 3 }
  | 3 => { s with OCR0A := 255, OCR0B := currentPixel.rawValueG, phase := 4 }
  | 4 =>
    let s1 := { s with OCR0B := 255, phase := 0,
                       currentPixelIndex := s.currentPixelIndex + 1 }
    if s1.currentPixelIndex = PIXEL_COUNT then
      let s2 := { s1 with currentPixelIndex := 0, swapChecks := s1.swapChecks + 1 }
      if s2.pendingRawPixelBufferSwap then
        { s2 with displayedRawPixelSet := s2.bufferedRawPixelSet,
                  bufferedRawPixelSet := s2.displayedRawPixelSet,
                  pendingRawPixelBufferSwap := false }
      else
        s2
    else
      s1
  | _ + 5 => s

/-- Iterate the interrupt handler a given number of timer overflows. -/
def runISR : Nat → PixelState → PixelState
  | 0, s => s
  | n + 1, s => runISR n (pixel_isr s)

/-- pixel_bufferedSetPixelRaw (pixel.cpp lines 708-716): write the three raw
compare values into the addressed slot of the buffered set. -/
def pixel_bufferedSetPixelRaw (pixel r_pwm g_pwm b_pwm : Nat)
    (s : PixelState) : PixelState :=
  let raw : rawpixel_t := ⟨r_pwm, g_pwm, b_pwm⟩
  { s with bufferedRawPixelSet := s.bufferedRawPixelSet.set pixel raw }

/-- gamma8R (pixel.cpp lines 725-727): the 32-entry red gamma table. -/
def gamma8R : List Nat :=
  [255,254,253,251,250,248,245,242,238,234,230,224,218,211,204,195,
   186,176,165,153,140,126,111,95,78,59,40,19,13,9,3,1]

/-- gamma8G (pixel.cpp lines 729-731): the 32-entry green gamma table. -/
def gamma8G : List Nat :=
  [255,254,253,251,250,248,245,242,238,234,230,224,218,211,204,195,
   186,176,165,153,140,126,111,95,78,59,40,19,13,9,3,1]

/-- gamma8B (pixel.cpp lines 733-735): the 32-entry blue gamma table. -/
def gamma8B : List Nat :=
  [255,254,253,251,250,248,245,242,238,234,230,224,218,211,204,195,
   186,176,165,153,140,126,111,95,78,59,40,19,13,9,3,1]

/-- pixel_bufferedSetPixel (pixel.cpp lines 740-752): gamma-map the color's
three components through the per-channel tables and write the resulting raw
values into the addressed slot of the buffered set. -/
def pixel_bufferedSetPixel (pixel : Nat) (newColor : pixelColor_t)
    (s : PixelState) : PixelState :=
  let raw : rawpixel_t :=
    ⟨gamma8R.getD newColor.r 0, gamma8G.getD newColor.g 0,
     gamma8B.getD newColor.b 0⟩
  { s with bufferedRawPixelSet := s.bufferedRawPixelSet.set pixel raw }

/-- The buffer-filling loop of pixel_init (pixel.cpp lines 275-279),
unrolled: for j = 0..5 set slot j of the set to (255,255,255). -/
def initPixelSet (l : List rawpixel_t) : List rawpixel_t :=
  (((((l.set 0 rawPixelOff).set 1 rawPixelOff).set 2 rawPixelOff).set 3
      rawPixelOff).set 4 rawPixelOff).set 5 rawPixelOff

/-- pixel_init (pixel.cpp lines 270-284): fill both frame-store buffers with
the all-off raw value.  The pin and timer setup calls touch only hardware
registers outside the modelled state. -/
def pixel_init (s : PixelState) : PixelState :=
  { s with displayedRawPixelSet := initPixelSet s.displayedRawPixelSet,
           bufferedRawPixelSet := initPixelSet s.bufferedRawPixelSet }

/-- The state at boot, before pixel_init runs: the C statics are
zero-initialized (pending flag clear, cursor at (0,0), buffers zero-filled,
ghost counter 0); the OCR registers are loaded with 255 (off) by
pixelTimersOn. -/
def bootState : PixelState :=
  { displayedRawPixelSet := List.replicate PIXEL_COUNT ⟨0, 0, 0⟩
    bufferedRawPixelSet := List.replicate PIXEL_COUNT ⟨0, 0, 0⟩
    pendingRawPixelBufferSwap := false
    currentPixelIndex := 0
    phase := 0
    OCR0A := 255
    OCR0B := 255
    OCR2B := 255
    swapChecks := 0 }

/-- The state right after pixel_init: both 6-slot buffers filled with
(255,255,255). -/
def initState : PixelState := pixel_init bootState

/-- The busy-wait of pixel_displayBufferedPixels (pixel.cpp line 760): while
the pending flag is set, the foreground spins and the timer interrupt keeps
firing; each iteration of the wait is one ISR invocation.  The fuel bound is
an artifact of totality: from any reachable state the flag clears within 30
overflows (one full 6-pixel x 5-phase frame), so fuel 31 is never exhausted
(proved below as waitForSwap_eq_runISR / stepsToWrap_le_30). -/
def waitForSwap : Nat → PixelState → PixelState
  | 0, s => s
  | n + 1, s =>
    if s.pendingRawPixelBufferSwap then waitForSwap n (pixel_isr s) else s

/-- pixel_displayBufferedPixels (pixel.cpp lines 756-766): set the pending
flag, busy-wait until the ISR clears it (performing the swap at the frame
boundary), then memcpy the displayed set's contents into the buffered set. -/
def pixel_displayBufferedPixels (s : PixelState) : PixelState :=
  let s1 := { s with pendingRawPixelBufferSwap := true }
  let s2 := waitForSwap 31 s1
  { s2 with bufferedRawPixelSet := s2.displayedRawPixelSet }

/-- The states reachable by the driver: both frame-store buffers have
exactly PIXEL_COUNT slots (they are fixed-size C arrays) and the cursor is
inside its round-robin range. -/
abbrev ValidState (s : PixelState) : Prop :=
  s.displayedRawPixelSet.length = PIXEL_COUNT ∧
  s.bufferedRawPixelSet.length = PIXEL_COUNT ∧
  s.currentPixelIndex < PIXEL_COUNT ∧
  s.phase < 5

/-- Number of ISR invocations from a given cursor position until (and
including) the one that wraps the pixel index past the last pixel and
examines the pending flag. -/
def stepsToWrap (s : PixelState) : Nat :=
  (5 - s.phase) + (5 - s.currentPixelIndex) * 5

end Pixel

namespace Pixel

/-- stepsToWrap is at least 1 on any valid state. -/
lemma stepsToWrap_pos (s : PixelState) (hv : ValidState s) :
    1 ≤ stepsToWrap s := by
  obtain ⟨-, -, -, h4⟩ := hv
  unfold stepsToWrap
  omega

/-- stepsToWrap is at most 30 (one full frame). -/
lemma stepsToWrap_le_30 (s : PixelState) : stepsToWrap s ≤ 30 := by
  unfold stepsToWrap
  have h1 : 5 - s.phase ≤ 5 := Nat.sub_le 5 s.phase
  have h2 : 5 - s.currentPixelIndex ≤ 5 := Nat.sub_le 5 s.currentPixelIndex
  nlinarith

/-- On a valid state, stepsToWrap is 1 exactly at the wraparound position
(last pixel, last phase). -/
lemma stepsToWrap_eq_one_iff (s : PixelState) (hv : ValidState s) :
    stepsToWrap s = 1 ↔ (s.currentPixelIndex = 5 ∧ s.phase = 4) := by
  obtain ⟨-, -, h3, h4⟩ := hv
  unfold stepsToWrap
  simp only [PIXEL_COUNT] at h3
  omega

/-- An ISR invocation anywhere other than the wraparound position leaves the
frame store, the pending flag and the ghost check counter untouched, keeps
the state valid, and decreases the distance to the wraparound by one. -/
lemma pixel_isr_nonwrap (s : PixelState) (hv : ValidState s)
    (hw : ¬(s.currentPixelIndex = 5 ∧ s.phase = 4)) :
    (pixel_isr s).displayedRawPixelSet = s.displayedRawPixelSet ∧
    (pixel_isr s).bufferedRawPixelSet = s.bufferedRawPixelSet ∧
    (pixel_isr s).pendingRawPixelBufferSwap = s.pendingRawPixelBufferSwap ∧
    (pixel_isr s).swapChecks = s.swapChecks ∧
    ValidState (pixel_isr s) ∧
    stepsToWrap (pixel_isr s) + 1 = stepsToWrap s := by
  obtain ⟨d, b, pend, px, ph, oa, ob, oc, k⟩ := s
  obtain ⟨h1, h2, h3, h4⟩ := hv
  simp only [PIXEL_COUNT] at h3
  simp only at h3 h4 hw
  interval_cases px <;> interval_cases ph <;>
    simp_all [pixel_isr, stepsToWrap, ValidState, PIXEL_COUNT]

/-- The ISR invocation at the wraparound position resets the cursor to
(0,0), bumps the ghost check counter, and exchanges the two buffer roles
exactly when the pending flag was set (clearing it). -/
lemma pixel_isr_wrap (s : PixelState) (hv : ValidState s)
    (h5 : s.currentPixelIndex = 5) (h4 : s.phase = 4) :
    (pixel_isr s).currentPixelIndex = 0 ∧
    (pixel_isr s).phase = 0 ∧
    (pixel_isr s).swapChecks = s.swapChecks + 1 ∧
    ValidState (pixel_isr s) ∧
    (s.pendingRawPixelBufferSwap = true →
      (pixel_isr s).displayedRawPixelSet = s.bufferedRawPixelSet ∧
      (pixel_isr s).bufferedRawPixelSet = s.displayedRawPixelSet ∧
      (pixel_isr s).pendingRawPixelBufferSwap = false) ∧
    (s.pendingRawPixelBufferSwap = false →
      (pixel_isr s).displayedRawPixelSet = s.displayedRawPixelSet ∧
      (pixel_isr s).bufferedRawPixelSet = s.bufferedRawPixelSet ∧
      (pixel_isr s).pendingRawPixelBufferSwap = false) := by
  obtain ⟨d, b, pend, px, ph, oa, ob, oc, k⟩ := s
  obtain ⟨h1, h2, h3, -⟩ := hv
  simp only at h5 h4
  subst h5 h4
  cases pend <;> simp_all [pixel_isr, ValidState, PIXEL_COUNT]

/-- One ISR invocation preserves validity. -/
lemma pixel_isr_valid (s : PixelState) (hv : ValidState s) :
    ValidState (pixel_isr s) := by
  by_cases hw : s.currentPixelIndex = 5 ∧ s.phase = 4
  case pos => exact (pixel_isr_wrap s hv hw.1 hw.2).2.2.2.1
  case neg => exact (pixel_isr_nonwrap s hv hw).2.2.2.2.1

end Pixel

namespace Pixel

/-- Validity is preserved by any number of ISR invocations. -/
lemma runISR_valid (k : Nat) :
    ∀ s : PixelState, ValidState s → ValidState (runISR k s) := by
  induction k with
  | zero => intro s hv; exact hv
  | succ n ih => intro s hv; exact ih (pixel_isr s) (pixel_isr_valid s hv)

/-- Running the ISR exactly up to (and including) the wraparound invocation:
the cursor returns to (0,0), the pending flag is examined exactly once, and
the buffer roles are exchanged precisely when the flag was set. -/
lemma runISR_to_wrap (d : Nat) :
    ∀ s : PixelState, ValidState s → stepsToWrap s = d →
    (runISR d s).currentPixelIndex = 0 ∧
    (runISR d s).phase = 0 ∧
    (runISR d s).swapChecks = s.swapChecks + 1 ∧
    ValidState (runISR d s) ∧
    (s.pendingRawPixelBufferSwap = true →
      (runISR d s).displayedRawPixelSet = s.bufferedRawPixelSet ∧
      (runISR d s).bufferedRawPixelSet = s.displayedRawPixelSet ∧
      (runISR d s).pendingRawPixelBufferSwap = false) ∧
    (s.pendingRawPixelBufferSwap = false →
      (runISR d s).displayedRawPixelSet = s.displayedRawPixelSet ∧
      (runISR d s).bufferedRawPixelSet = s.bufferedRawPixelSet ∧
      (runISR d s).pendingRawPixelBufferSwap = false) := by
  induction d with
  | zero =>
    intro s hv hd
    have := stepsToWrap_pos s hv
    omega
  | succ n ih =>
    intro s hv hd
    rcases Nat.eq_zero_or_pos n with hn | hn
    · subst hn
      have hwrap := (stepsToWrap_eq_one_iff s hv).mp hd
      have h := pixel_isr_wrap s hv hwrap.1 hwrap.2
      show _ ∧ _ ∧ _ ∧ _ ∧ _ ∧ _
      simpa [runISR] using h
    · have hnw : ¬(s.currentPixelIndex = 5 ∧ s.phase = 4) := by
        intro hc
        have := (stepsToWrap_eq_one_iff s hv).mpr hc
        omega
      obtain ⟨e1, e2, e3, e4, hv', hst⟩ := pixel_isr_nonwrap s hv hnw
      have hst' : stepsToWrap (pixel_isr s) = n := by omega
      have hrun : runISR (n + 1) s = runISR n (pixel_isr s) := rfl
      obtain ⟨c1, c2, c3, c4, c5, c6⟩ := ih (pixel_isr s) hv' hst'
      rw [hrun]
      refine ⟨c1, c2, ?_, c4, ?_, ?_⟩
      · rw [c3, e4]
      · intro hp
        have := c5 (by rw [e3, hp])
        rw [e1, e2] at this
        exact this
      · intro hp
        have := c6 (by rw [e3, hp])
        rw [e1, e2] at this
        exact this

/-- Strictly before the wraparound invocation, no run of the ISR changes the
frame store, the pending flag, or the ghost check counter. -/
lemma runISR_before_wrap (k : Nat) :
    ∀ s : PixelState, ValidState s → k < stepsToWrap s →
    (runISR k s).displayedRawPixelSet = s.displayedRawPixelSet ∧
    (runISR k s).bufferedRawPixelSet = s.bufferedRawPixelSet ∧
    (runISR k s).pendingRawPixelBufferSwap = s.pendingRawPixelBufferSwap ∧
    (runISR k s).swapChecks = s.swapChecks ∧
    ValidState (runISR k s) ∧
    stepsToWrap (runISR k s) = stepsToWrap s - k := by
  induction k with
  | zero =>
    intro s hv _
    exact ⟨rfl, rfl, rfl, rfl, hv, by simp [runISR]⟩
  | succ n ih =>
    intro s hv hk
    have hnw : ¬(s.currentPixelIndex = 5 ∧ s.phase = 4) := by
      intro hc
      have := (stepsToWrap_eq_one_iff s hv).mpr hc
      omega
    obtain ⟨e1, e2, e3, e4, hv', hst⟩ := pixel_isr_nonwrap s hv hnw
    have hk' : n < stepsToWrap (pixel_isr s) := by omega
    have hrun : runISR (n + 1) s = runISR n (pixel_isr s) := rfl
    obtain ⟨c1, c2, c3, c4, c5, c6⟩ := ih (pixel_isr s) hv' hk'
    rw [hrun]
    exact ⟨by rw [c1, e1], by rw [c2, e2], by rw [c3, e3], by rw [c4, e4],
           c5, by omega⟩

/-- If the pending flag is clear, the busy-wait returns immediately. -/
lemma waitForSwap_noop (n : Nat) (s : PixelState)
    (h : s.pendingRawPixelBufferSwap = false) : waitForSwap n s = s := by
  cases n <;> simp [waitForSwap, h]

/-- With the pending flag set, the busy-wait runs the ISR exactly up to the
wraparound invocation that clears the flag, provided it has fuel for at
least that many overflows. -/
lemma waitForSwap_eq_runISR (d : Nat) :
    ∀ (s : PixelState) (m : Nat), ValidState s →
    s.pendingRawPixelBufferSwap = true → stepsToWrap s = d → d ≤ m →
    waitForSwap (m + 1) s = runISR d s := by
  induction d with
  | zero =>
    intro s m hv _ hd _
    have := stepsToWrap_pos s hv
    omega
  | succ n ih =>
    intro s m hv hp hd hm
    have hstep : waitForSwap (m + 1) s = waitForSwap m (pixel_isr s) := by
      simp [waitForSwap, hp]
    rcases Nat.eq_zero_or_pos n with hn | hn
    · subst hn
      have hwrap := (stepsToWrap_eq_one_iff s hv).mp hd
      have h := pixel_isr_wrap s hv hwrap.1 hwrap.2
      have hpend' : (pixel_isr s).pendingRawPixelBufferSwap = false :=
        (h.2.2.2.2.1 hp).2.2
      rw [hstep, waitForSwap_noop m (pixel_isr s) hpend']
      rfl
    · have hnw : ¬(s.currentPixelIndex = 5 ∧ s.phase = 4) := by
        intro hc
        have := (stepsToWrap_eq_one_iff s hv).mpr hc
        omega
      obtain ⟨-, -, e3, -, hv', hst⟩ := pixel_isr_nonwrap s hv hnw
      obtain ⟨m', rfl⟩ : ∃ m', m = m' + 1 := ⟨m - 1, by omega⟩
      rw [hstep, ih (pixel_isr s) m' hv' (by rw [e3, hp]) (by omega) (by omega)]
      rfl

/-- The full effect of pixel_displayBufferedPixels on a valid state: the old
buffered set becomes displayed, the (new) buffered set is primed with a copy
of it, the pending flag ends clear, and the cursor ends at the frame
boundary (0,0). -/
lemma displayBufferedPixels_spec (s : PixelState) (hv : ValidState s) :
    (pixel_displayBufferedPixels s).displayedRawPixelSet = s.bufferedRawPixelSet ∧
    (pixel_displayBufferedPixels s).bufferedRawPixelSet = s.bufferedRawPixelSet ∧
    (pixel_displayBufferedPixels s).pendingRawPixelBufferSwap = false ∧
    (pixel_displayBufferedPixels s).currentPixelIndex = 0 ∧
    (pixel_displayBufferedPixels s).phase = 0 ∧
    ValidState (pixel_displayBufferedPixels s) := by
  obtain ⟨h1, h2, h3, h4⟩ := hv
  set s1 : PixelState := { s with pendingRawPixelBufferSwap := true } with hs1
  have hv1 : ValidState s1 := ⟨h1, h2, h3, h4⟩
  have hle : stepsToWrap s1 ≤ 30 := stepsToWrap_le_30 s1
  have hwait : waitForSwap 31 s1 = runISR (stepsToWrap s1) s1 := by
    have := waitForSwap_eq_runISR (stepsToWrap s1) s1 30 hv1 rfl rfl hle
    simpa using this
  obtain ⟨c1, c2, c3, c4, c5, -⟩ := runISR_to_wrap (stepsToWrap s1) s1 hv1 rfl
  obtain ⟨d1, d2, d3⟩ := c5 rfl
  have hout : pixel_displayBufferedPixels s =
      { runISR (stepsToWrap s1) s1 with
        bufferedRawPixelSet := (runISR (stepsToWrap s1) s1).displayedRawPixelSet } := by
    show { waitForSwap 31 s1 with
           bufferedRawPixelSet := (waitForSwap 31 s1).displayedRawPixelSet } = _
    rw [hwait]
  rw [hout]
  refine ⟨d1, d1, d3, c1, c2, ?_⟩
  refine ⟨?_, ?_, ?_, ?_⟩
  · simpa [d1] using h2
  · simpa [d1] using h2
  · simp [c1]
  · simp [c2]

end Pixel

namespace Pixel

/-- Reading back the slot just written by List.set. -/
lemma getD_set_self {α : Type} (l : List α) (i : Nat) (a d : α)
    (h : i < l.length) : (l.set i a).getD i d = a := by
  simp [List.getD_eq_getElem?_getD, List.getElem?_set_eq_of_lt, h]

/-- List.set leaves every other slot unchanged. -/
lemma getD_set_ne {α : Type} (l : List α) (i j : Nat) (a d : α)
    (h : j ≠ i) : (l.set i a).getD j d = l.getD j d := by
  simp [List.getD_eq_getElem?_getD, List.getElem?_set_ne (Ne.symm h)]

/-- On a 6-slot set, the pixel_init filling loop produces six all-off
slots. -/
lemma initPixelSet_eq (l : List rawpixel_t) (h : l.length = PIXEL_COUNT) :
    initPixelSet l = List.replicate PIXEL_COUNT rawPixelOff := by
  rcases l with _ | ⟨a0, _ | ⟨a1, _ | ⟨a2, _ | ⟨a3, _ | ⟨a4, _ | ⟨a5, rest⟩⟩⟩⟩⟩⟩ <;>
    simp only [List.length_cons, List.length_nil, PIXEL_COUNT] at h
  all_goals try omega
  obtain rfl : rest = [] := List.length_eq_zero.mp (by omega)
  rfl

/-- The three gamma tables are pointwise non-increasing on indices 0..31. -/
lemma gamma_tables_mono_fin : ∀ i j : Fin 32, i.val ≤ j.val →
    gamma8R.getD j.val 0 ≤ gamma8R.getD i.val 0 ∧
    gamma8G.getD j.val 0 ≤ gamma8G.getD i.val 0 ∧
    gamma8B.getD j.val 0 ≤ gamma8B.getD i.val 0 := by decide

end Pixel

namespace Pixel

/-- A sample valid mid-scan state used to exercise the temporal claims: the
swap request is pending while the cursor sits at pixel 2, phase 3, and the
two buffers hold different contents. -/
def midScanState : PixelState :=
  { initState with
    pendingRawPixelBufferSwap := true
    currentPixelIndex := 2
    phase := 3
    bufferedRawPixelSet := List.replicate PIXEL_COUNT ⟨1, 2, 3⟩ }

/-- C1: for every pixel index in 0..5 and every triple of raw compare values
in 0..255, pixel_bufferedSetPixelRaw followed immediately by
pixel_displayBufferedPixels leaves the displayed set's slot at that index
holding exactly (r, g, b). -/
theorem claim_C1_raw_roundtrip (s : PixelState) (hv : ValidState s)
    (i r g b : Nat) (hi : i < PIXEL_COUNT)
    (hr : r < 256) (hg : g < 256) (hb : b < 256) :
    (pixel_displayBufferedPixels
        (pixel_bufferedSetPixelRaw i r g b s)).displayedRawPixelSet.getD i
      ⟨0, 0, 0⟩ = ⟨r, g, b⟩ := by
  obtain ⟨h1, h2, h3, h4⟩ := hv
  have hv' : ValidState (pixel_bufferedSetPixelRaw i r g b s) :=
    ⟨h1, by simpa [pixel_bufferedSetPixelRaw] using h2, h3, h4⟩
  obtain ⟨e1, -⟩ := displayBufferedPixels_spec _ hv'
  rw [e1]
  show (s.bufferedRawPixelSet.set i _).getD i _ = _
  exact getD_set_self _ _ _ _ (by rw [h2]; exact hi)

/-- C1 witness: round-trip at pixel 2 with the raw triple (10, 20, 30)
starting from the initialized store. -/
theorem claim_C1_raw_roundtrip_witness :
    (ValidState initState ∧ 2 < PIXEL_COUNT ∧
      10 < 256 ∧ 20 < 256 ∧ 30 < 256) ∧
    (pixel_displayBufferedPixels
        (pixel_bufferedSetPixelRaw 2 10 20 30 initState)).displayedRawPixelSet.getD 2
      ⟨0, 0, 0⟩ = ⟨10, 20, 30⟩ :=
  ⟨by decide,
   claim_C1_raw_roundtrip initState (by decide) 2 10 20 30 (by decide)
     (by decide) (by decide) (by decide)⟩

/-- C2: once a swap request is raised at any cursor position, every ISR
invocation strictly before the pixel-index wraparound leaves the displayed
set unchanged; the invocation at the wraparound performs the swap (the
displayed set becomes the old buffered set) and lands the cursor on the
frame boundary (0,0). -/
theorem claim_C2_swap_only_at_wrap (s : PixelState) (hv : ValidState s)
    (hp : s.pendingRawPixelBufferSwap = true) :
    (∀ k, k < stepsToWrap s →
      (runISR k s).displayedRawPixelSet = s.displayedRawPixelSet) ∧
    (runISR (stepsToWrap s) s).displayedRawPixelSet = s.bufferedRawPixelSet ∧
    (runISR (stepsToWrap s) s).currentPixelIndex = 0 ∧
    (runISR (stepsToWrap s) s).phase = 0 := by
  constructor
  · intro k hk
    exact (runISR_before_wrap k s hv hk).1
  · obtain ⟨c1, c2, -, -, c5, -⟩ := runISR_to_wrap (stepsToWrap s) s hv rfl
    exact ⟨(c5 hp).1, c1, c2⟩

/-- C2 witness: a swap requested mid-scan at pixel 2, phase 3 leaves the
displayed set untouched for all 17 invocations before the wraparound and
swaps exactly there. -/
theorem claim_C2_swap_only_at_wrap_witness :
    (ValidState midScanState ∧
      midScanState.pendingRawPixelBufferSwap = true) ∧
    ((∀ k, k < stepsToWrap midScanState →
        (runISR k midScanState).displayedRawPixelSet =
          midScanState.displayedRawPixelSet) ∧
      (runISR (stepsToWrap midScanState) midScanState).displayedRawPixelSet =
        midScanState.bufferedRawPixelSet ∧
      (runISR (stepsToWrap midScanState) midScanState).currentPixelIndex = 0 ∧
      (runISR (stepsToWrap midScanState) midScanState).phase = 0) :=
  ⟨by decide, claim_C2_swap_only_at_wrap midScanState (by decide) rfl⟩

/-- C3: on inputs 0..31 each per-channel gamma table is non-increasing in
the brightness input, and input 0 maps to the raw off value 255, on every
channel. -/
theorem claim_C3_gamma_monotone (i j : Nat) (hij : i ≤ j) (hj : j < 32) :
    (gamma8R.getD j 0 ≤ gamma8R.getD i 0 ∧
      gamma8G.getD j 0 ≤ gamma8G.getD i 0 ∧
      gamma8B.getD j 0 ≤ gamma8B.getD i 0) ∧
    (gamma8R.getD 0 0 = 255 ∧ gamma8G.getD 0 0 = 255 ∧
      gamma8B.getD 0 0 = 255) := by
  have hi : i < 32 := lt_of_le_of_lt hij hj
  exact ⟨gamma_tables_mono_fin ⟨i, hi⟩ ⟨j, hj⟩ hij, by decide⟩

/-- C3 witness: monotonicity at the pair (5, 11) and the off value at 0. -/
theorem claim_C3_gamma_monotone_witness :
    ((5 : Nat) ≤ 11 ∧ (11 : Nat) < 32) ∧
    ((gamma8R.getD 11 0 ≤ gamma8R.getD 5 0 ∧
        gamma8G.getD 11 0 ≤ gamma8G.getD 5 0 ∧
        gamma8B.getD 11 0 ≤ gamma8B.getD 5 0) ∧
      (gamma8R.getD 0 0 = 255 ∧ gamma8G.getD 0 0 = 255 ∧
        gamma8B.getD 0 0 = 255)) :=
  ⟨by decide, claim_C3_gamma_monotone 5 11 (by decide) (by decide)⟩

/-- C4: after pixel_displayBufferedPixels returns, the newly-buffered set
equals the newly-displayed set element-for-element (the closing memcpy
primes the buffer with the displayed contents). -/
theorem claim_C4_buffer_primed_after_display (s : PixelState) :
    (pixel_displayBufferedPixels s).bufferedRawPixelSet =
      (pixel_displayBufferedPixels s).displayedRawPixelSet := rfl

/-- C5: from the frame boundary (pixel 0, phase 0), exactly 30 ISR
invocations (6 pixels x 5 phases) return the cursor to (0,0); the pending
flag is examined exactly once during those 30 invocations (the ghost
counter rises by exactly one, and only at the last invocation); throughout,
the pixel index stays below 6 and the phase stays below 5. -/
theorem claim_C5_frame_cycle (s : PixelState) (hv : ValidState s)
    (h0 : s.currentPixelIndex = 0) (hph : s.phase = 0) :
    (runISR 30 s).currentPixelIndex = 0 ∧
    (runISR 30 s).phase = 0 ∧
    (runISR 30 s).swapChecks = s.swapChecks + 1 ∧
    (∀ k, k < 30 → (runISR k s).swapChecks = s.swapChecks) ∧
    (∀ k, k ≤ 30 → (runISR k s).currentPixelIndex < PIXEL_COUNT ∧
      (runISR k s).phase < 5) := by
  have hst : stepsToWrap s = 30 := by
    unfold stepsToWrap
    rw [h0, hph]
  obtain ⟨c1, c2, c3, -, -, -⟩ := runISR_to_wrap 30 s hv hst
  refine ⟨c1, c2, c3, ?_, ?_⟩
  · intro k hk
    exact (runISR_before_wrap k s hv (by omega)).2.2.2.1
  · intro k _
    have h := runISR_valid k s hv
    exact ⟨h.2.2.1, h.2.2.2⟩

/-- C5 witness: one full frame from the initialized state. -/
theorem claim_C5_frame_cycle_witness :
    (ValidState initState ∧ initState.currentPixelIndex = 0 ∧
      initState.phase = 0) ∧
    ((runISR 30 initState).currentPixelIndex = 0 ∧
      (runISR 30 initState).phase = 0 ∧
      (runISR 30 initState).swapChecks = initState.swapChecks + 1 ∧
      (∀ k, k < 30 → (runISR k initState).swapChecks = initState.swapChecks) ∧
      (∀ k, k ≤ 30 → (runISR k initState).currentPixelIndex < PIXEL_COUNT ∧
        (runISR k initState).phase < 5)) :=
  ⟨by decide, claim_C5_frame_cycle initState (by decide) rfl rfl⟩

/-- C6: from the all-off initialized store, pixel_bufferedSetPixel(0,
(r 31, g 0, b 0)) followed by pixel_displayBufferedPixels leaves displayed
slot 0 at (1, 255, 255) and slots 1..5 unchanged at (255, 255, 255). -/
theorem claim_C6_max_red_scenario :
    (pixel_displayBufferedPixels
        (pixel_bufferedSetPixel 0 ⟨31, 0, 0⟩ initState)).displayedRawPixelSet =
      [⟨1, 255, 255⟩, ⟨255, 255, 255⟩, ⟨255, 255, 255⟩, ⟨255, 255, 255⟩,
       ⟨255, 255, 255⟩, ⟨255, 255, 255⟩] := by decide

/-- C7: two consecutive pixel_displayBufferedPixels calls with no
intervening writes leave the displayed set unchanged. -/
theorem claim_C7_display_idempotent (s : PixelState) (hv : ValidState s) :
    (pixel_displayBufferedPixels
        (pixel_displayBufferedPixels s)).displayedRawPixelSet =
      (pixel_displayBufferedPixels s).displayedRawPixelSet := by
  obtain ⟨e1, e2, -, -, -, hv'⟩ := displayBufferedPixels_spec s hv
  obtain ⟨f1, -⟩ := displayBufferedPixels_spec _ hv'
  rw [f1, e2, e1]

/-- C7 witness: double display after a raw write to pixel 1. -/
theorem claim_C7_display_idempotent_witness :
    ValidState (pixel_bufferedSetPixelRaw 1 5 6 7 initState) ∧
    (pixel_displayBufferedPixels
        (pixel_displayBufferedPixels
          (pixel_bufferedSetPixelRaw 1 5 6 7 initState))).displayedRawPixelSet =
      (pixel_displayBufferedPixels
        (pixel_bufferedSetPixelRaw 1 5 6 7 initState)).displayedRawPixelSet :=
  ⟨by decide,
   claim_C7_display_idempotent (pixel_bufferedSetPixelRaw 1 5 6 7 initState)
     (by decide)⟩

/-- C8: for every in-range pixel index, pixel_bufferedSetPixelRaw and
pixel_bufferedSetPixel write only the addressed slot of the buffered set:
the displayed set and every other buffered slot are unchanged. -/
theorem claim_C8_writes_touch_only_their_slot (s : PixelState)
    (i r g b : Nat) (c : pixelColor_t) (j : Nat)
    (hi : i < PIXEL_COUNT) (hj : j ≠ i) :
    (pixel_bufferedSetPixelRaw i r g b s).displayedRawPixelSet =
      s.displayedRawPixelSet ∧
    (pixel_bufferedSetPixel i c s).displayedRawPixelSet =
      s.displayedRawPixelSet ∧
    (pixel_bufferedSetPixelRaw i r g b s).bufferedRawPixelSet.getD j
        ⟨0, 0, 0⟩ = s.bufferedRawPixelSet.getD j ⟨0, 0, 0⟩ ∧
    (pixel_bufferedSetPixel i c s).bufferedRawPixelSet.getD j ⟨0, 0, 0⟩ =
      s.bufferedRawPixelSet.getD j ⟨0, 0, 0⟩ :=
  ⟨rfl, rfl, getD_set_ne _ _ _ _ _ hj, getD_set_ne _ _ _ _ _ hj⟩

/-- C8 witness: writes to pixel 1 leave buffered slot 4 and the whole
displayed set of the initialized store unchanged. -/
theorem claim_C8_writes_touch_only_their_slot_witness :
    ((1 : Nat) < PIXEL_COUNT ∧ (4 : Nat) ≠ 1) ∧
    ((pixel_bufferedSetPixelRaw 1 9 8 7 initState).displayedRawPixelSet =
        initState.displayedRawPixelSet ∧
      (pixel_bufferedSetPixel 1 ⟨3, 4, 5⟩ initState).displayedRawPixelSet =
        initState.displayedRawPixelSet ∧
      (pixel_bufferedSetPixelRaw 1 9 8 7 initState).bufferedRawPixelSet.getD 4
          ⟨0, 0, 0⟩ = initState.bufferedRawPixelSet.getD 4 ⟨0, 0, 0⟩ ∧
      (pixel_bufferedSetPixel 1 ⟨3, 4, 5⟩ initState).bufferedRawPixelSet.getD 4
          ⟨0, 0, 0⟩ = initState.bufferedRawPixelSet.getD 4 ⟨0, 0, 0⟩) :=
  ⟨by decide,
   claim_C8_writes_touch_only_their_slot initState 1 9 8 7 ⟨3, 4, 5⟩ 4
     (by decide) (by decide)⟩

/-- C9: after pixel_init, every slot of both frame-store buffers holds the
all-off raw value (255, 255, 255). -/
theorem claim_C9_init_all_off (s : PixelState)
    (h1 : s.displayedRawPixelSet.length = PIXEL_COUNT)
    (h2 : s.bufferedRawPixelSet.length = PIXEL_COUNT)
    (j : Nat) (hj : j < PIXEL_COUNT) :
    (pixel_init s).displayedRawPixelSet.getD j ⟨0, 0, 0⟩ = ⟨255, 255, 255⟩ ∧
    (pixel_init s).bufferedRawPixelSet.getD j ⟨0, 0, 0⟩ = ⟨255, 255, 255⟩ := by
  have e1 : (pixel_init s).displayedRawPixelSet =
      List.replicate PIXEL_COUNT rawPixelOff :=
    initPixelSet_eq s.displayedRawPixelSet h1
  have e2 : (pixel_init s).bufferedRawPixelSet =
      List.replicate PIXEL_COUNT rawPixelOff :=
    initPixelSet_eq s.bufferedRawPixelSet h2
  rw [e1, e2]
  interval_cases j <;> exact ⟨rfl, rfl⟩

/-- C9 witness: slot 3 of both buffers after pixel_init on the boot state. -/
theorem claim_C9_init_all_off_witness :
    (bootState.displayedRawPixelSet.length = PIXEL_COUNT ∧
      bootState.bufferedRawPixelSet.length = PIXEL_COUNT ∧ (3 : Nat) < PIXEL_COUNT) ∧
    ((pixel_init bootState).displayedRawPixelSet.getD 3 ⟨0, 0, 0⟩ =
        ⟨255, 255, 255⟩ ∧
      (pixel_init bootState).bufferedRawPixelSet.getD 3 ⟨0, 0, 0⟩ =
        ⟨255, 255, 255⟩) :=
  ⟨by decide,
   claim_C9_init_all_off bootState (by decide) (by decide) 3 (by decide)⟩

/-- C10: the three per-channel gamma tables are entry-for-entry identical,
so pixel_bufferedSetPixel maps a color with equal components to a raw pixel
with equal rawValueR, rawValueG, rawValueB. -/
theorem claim_C10_channels_identical (s : PixelState) (i v : Nat)
    (hi : i < PIXEL_COUNT) (hv31 : v < 32)
    (hlen : s.bufferedRawPixelSet.length = PIXEL_COUNT) :
    gamma8R = gamma8G ∧ gamma8G = gamma8B ∧
    ((pixel_bufferedSetPixel i ⟨v, v, v⟩ s).bufferedRawPixelSet.getD i
        ⟨0, 0, 0⟩).rawValueR =
      ((pixel_bufferedSetPixel i ⟨v, v, v⟩ s).bufferedRawPixelSet.getD i
        ⟨0, 0, 0⟩).rawValueG ∧
    ((pixel_bufferedSetPixel i ⟨v, v, v⟩ s).bufferedRawPixelSet.getD i
        ⟨0, 0, 0⟩).rawValueG =
      ((pixel_bufferedSetPixel i ⟨v, v, v⟩ s).bufferedRawPixelSet.getD i
        ⟨0, 0, 0⟩).rawValueB := by
  have hset : (pixel_bufferedSetPixel i ⟨v, v, v⟩ s).bufferedRawPixelSet.getD i
      ⟨0, 0, 0⟩ =
      ⟨gamma8R.getD v 0, gamma8G.getD v 0, gamma8B.getD v 0⟩ :=
    getD_set_self _ _ _ _ (by rw [hlen]; exact hi)
  rw [hset]
  exact ⟨rfl, rfl, rfl, rfl⟩

/-- C10 witness: equal-component color (17,17,17) written to pixel 0 of the
initialized store yields equal raw channels. -/
theorem claim_C10_channels_identical_witness :
    ((0 : Nat) < PIXEL_COUNT ∧ (17 : Nat) < 32 ∧
      initState.bufferedRawPixelSet.length = PIXEL_COUNT) ∧
    (gamma8R = gamma8G ∧ gamma8G = gamma8B ∧
      ((pixel_bufferedSetPixel 0 ⟨17, 17, 17⟩ initState).bufferedRawPixelSet.getD 0
          ⟨0, 0, 0⟩).rawValueR =
        ((pixel_bufferedSetPixel 0 ⟨17, 17, 17⟩ initState).bufferedRawPixelSet.getD 0
          ⟨0, 0, 0⟩).rawValueG ∧
      ((pixel_bufferedSetPixel 0 ⟨17, 17, 17⟩ initState).bufferedRawPixelSet.getD 0
          ⟨0, 0, 0⟩).rawValueG =
        ((pixel_bufferedSetPixel 0 ⟨17, 17, 17⟩ initState).bufferedRawPixelSet.getD 0
          ⟨0, 0, 0⟩).rawValueB) :=
  ⟨by decide,
   claim_C10_channels_identical initState 0 17 (by decide) (by decide)
     (by decide)⟩

end Pixel
